import Mathlib

/-!
Verification development for the RAG gateway server
(`server-rag`: `server.py`, `api/ollama_api.py`, `api/chat_handler.py`,
`api/routes.py`, `api/models.py`).

The Python handlers are shallowly embedded: pure request/response
construction becomes Lean functions on explicit data; the generation
pipeline and the upstream HTTP service are abstracted as explicit
arguments (`Except` for fallible calls, an `HttpAttempt` sum for the
outcome of one upstream HTTP request); impure timestamps and uuids are
passed in as parameters.  JSON dictionaries are modelled by the `Json`
inductive below, with fields listed in the order the source builds them.
-/

/-- JSON values, as built by the handlers (dict fields in source order). -/
inductive Json where
  | null
  | bool (b : Bool)
  | num (n : Int)
  | str (s : String)
  | arr (xs : List Json)
  | obj (fields : List (String × Json))
deriving Repr

/-- Top-level keys of a JSON object, in construction order. -/
def Json.keys : Json → List String
  | .obj fs => fs.map Prod.fst
  | _ => []

/-- Field access on a JSON object (first binding wins, as in a Python dict
built without duplicate keys). -/
def Json.lookup (j : Json) (k : String) : Option Json :=
  match j with
  | .obj fs => (fs.find? (fun p => p.fst == k)).map Prod.snd
  | _ => none

/-- The whitespace characters recognised by the Python `str.split()`
used throughout the streaming code (ASCII subset; the answers handled
by the server are produced by `json`-clean model output). -/
def isPySpace (c : Char) : Bool :=
  c = ' ' || c = '\t' || c = '\n' || c = '\r' || c = '\x0b' || c = '\x0c'

/-- Worker for `pySplit`: scan the character list, accumulating the
current word (reversed); whitespace ends a word, runs of whitespace
produce nothing.  Mirrors CPython `str.split()` with no argument. -/
def pySplitChars : List Char → List Char → List String
  | [], acc => if acc.isEmpty then [] else [String.mk acc.reverse]
  | c :: cs, acc =>
    if isPySpace c then
      (if acc.isEmpty then [] else [String.mk acc.reverse]) ++ pySplitChars cs []
    else
      pySplitChars cs (c :: acc)

/-- Python `s.split()`: split on whitespace runs, discarding empty words
(`ollama_api.py` line 292, `chat_handler.py` line 91, `server.py` line 369). -/
def pySplit (s : String) : List String :=
  pySplitChars s.data []

/-- Python `" ".join(ws)`. -/
def sepJoin : List String → String
  | [] => ""
  | [w] => w
  | w :: x :: ws => w ++ " " ++ sepJoin (x :: ws)

/-- Fuel-indexed transcription of the segmentation loop
`for i in range(0, len(words), chunk_size)` with `chunk_size = k + 1`:
each iteration takes the next `k+1` words, joins them with single
spaces, and appends one trailing space unless these are the last words
(`if i + chunk_size < len(words)`).  Fuel bounds the iteration count;
`words.length` iterations always suffice because every round consumes
at least one word. -/
def chunkFuel : Nat → Nat → List String → List String
  | 0, _, _ => []
  | _ + 1, _, [] => []
  | fuel + 1, k, w :: ws =>
    (sepJoin ((w :: ws).take (k + 1)) ++ if (ws.drop k).isEmpty then "" else " ")
      :: chunkFuel fuel k (ws.drop k)

/-- The word groups emitted by the artificial segmentation for group
size `cs` (the source uses `chunk_size = 2` in `ollama_api.py` and
`chunk_size = 1` in `chat_handler.py` / `server.py`). -/
def chunkGroups (cs : Nat) (ws : List String) : List String :=
  chunkFuel ws.length (cs - 1) ws

/-- The synthetic usage counters attached to Ollama-dialect responses
(`ollama_api.py`: fixed durations, word-count eval fields). -/
structure OllamaUsage where
  total_duration : Nat
  load_duration : Nat
  prompt_eval_count : Nat
  prompt_eval_duration : Nat
  eval_count : Nat
  eval_duration : Nat
deriving DecidableEq, Repr

/-- One Ollama-dialect chat message object, as yielded on the NDJSON
stream or returned whole (`model`, `created_at`, `message{role,content}`,
`done`, plus the usage counters when present). -/
structure OllamaChatChunk where
  model : String
  created_at : String
  role : String
  content : String
  done : Bool
  usage : Option OllamaUsage
deriving DecidableEq, Repr

/-- One Ollama-dialect generate object (`response` field instead of
`message`; a final object additionally carries `context: []` and usage). -/
structure OllamaGenChunk where
  model : String
  created_at : String
  response : String
  done : Bool
  context : Option (List Int)
  usage : Option OllamaUsage
deriving DecidableEq, Repr

/-- Usage counters of the final chunk of `rag_chat_stream`
(`ollama_api.py` lines 324-338): fixed placeholder durations,
`prompt_eval_count = len(question.split())`,
`eval_count = len(response_content.split())`. -/
def ragStreamUsage (question answer : String) : OllamaUsage :=
  ⟨1000000000, 100000000, (pySplit question).length, 200000000,
    (pySplit answer).length, 500000000⟩

/-- The all-zero usage record, for comparison with what the spec calls
zeroed counters. -/
def zeroUsage : OllamaUsage := ⟨0, 0, 0, 0, 0, 0⟩

/-- `create_chat_response` (`ollama_api.py` lines 195-219): the
non-streaming Ollama chat response; `prompt_eval_count` is the fixed
placeholder 10, `eval_count = len(content.split())`, `done = True`. -/
def create_chat_response (ts model content : String) : OllamaChatChunk :=
  ⟨model, ts, "assistant", content, true,
    some ⟨1000000000, 100000000, 10, 200000000, (pySplit content).length, 500000000⟩⟩

/-- `create_chat_error_response` (`ollama_api.py` lines 245-259):
Ollama chat error envelope, `content = "Error: " + error`, `done = True`,
no usage counters. -/
def create_chat_error_response (ts model err : String) : OllamaChatChunk :=
  ⟨model, ts, "assistant", "Error: " ++ err, true, none⟩

/-- `create_generate_error_response` (`ollama_api.py` lines 261-272). -/
def create_generate_error_response (ts model err : String) : OllamaGenChunk :=
  ⟨model, ts, "Error: " ++ err, true, none, none⟩

/-- `rag_chat_stream` (`ollama_api.py` lines 278-349): the sequence of
NDJSON objects yielded for one streamed Ollama chat request.  The
pipeline call `chat_handler.process_with_rag(question)` is abstracted
as `pres`; on failure the `except` block yields a single error envelope.
On success the answer is split into words and emitted in groups of
`chunk_size = 2`, followed by one final object with empty content,
`done = True` and the synthetic usage counters. -/
def rag_chat_stream (ts question model : String) (pres : Except String String) :
    List OllamaChatChunk :=
  match pres with
  | .error e => [create_chat_error_response ts model e]
  | .ok answer =>
    (chunkGroups 2 (pySplit answer)).map
      (fun c => ⟨model, ts, "assistant", c, false, none⟩)
    ++ [⟨model, ts, "assistant", "", true, some (ragStreamUsage question answer)⟩]

/-- `rag_generate_stream` (`ollama_api.py` lines 351-417): same shape in
the generate dialect (`chunk_size = 2`; the final object carries
`context: []` and the usage counters). -/
def rag_generate_stream (ts prompt model : String) (pres : Except String String) :
    List OllamaGenChunk :=
  match pres with
  | .error e => [create_generate_error_response ts model e]
  | .ok answer =>
    (chunkGroups 2 (pySplit answer)).map
      (fun c => ⟨model, ts, c, false, none, none⟩)
    ++ [⟨model, ts, "", true, some [], some (ragStreamUsage prompt answer)⟩]

/-- Concatenation of the streamed chat content fields in emission order. -/
def deltaConcat (s : List OllamaChatChunk) : String :=
  String.join (s.map (fun c => c.content))

/-- One OpenAI-dialect `chat.completion.chunk` body
(`chat_handler.py` lines 50-61 and 115-125, `server.py` likewise):
`delta = some c` stands for `{"content": c}`, `delta = none` for the
empty `{}` of the final chunk. -/
structure OpenAIChunk where
  id : String
  object : String
  created : Int
  model : String
  delta : Option String
  finish_reason : Option String
deriving DecidableEq, Repr

/-- One Server-Sent-Events line of the OpenAI-dialect stream: a data
line holding a chunk, a data line holding the error object of the
`except` branch, or the literal `data: [DONE]` sentinel. -/
inductive SSELine where
  | chunk (c : OpenAIChunk)
  | errorObj (message typ code : String)
  | doneSentinel
deriving DecidableEq, Repr

/-- The capability probe of `stream_rag_response`
(`chat_handler.py` lines 48-98): a pipeline either exposes synchronous
incremental production (`hasattr(rag_chain, "stream")`), asynchronous
incremental production (`astream`), or only full generation
(`invoke`), in that probing order. -/
inductive PipelineMode where
  | syncStream (frags : List String)
  | asyncStream (frags : List String)
  | invokeOnly (answer : String)
deriving DecidableEq, Repr

/-- The content fragments the stream emits per pipeline capability:
true incremental fragments are relayed, skipping falsy (empty) ones
(`if chunk:`); with `invoke` only, the answer is split into words and
re-grouped with `chunk_size = 1`. -/
def contentFrags : PipelineMode → List String
  | .syncStream frags => frags.filter (fun c => c ≠ "")
  | .asyncStream frags => frags.filter (fun c => c ≠ "")
  | .invokeOnly answer => chunkGroups 1 (pySplit answer)

/-- `ChatHandler.stream_rag_response` (`chat_handler.py` lines 42-140;
the last `stream_rag_response` definition in `server.py` is
line-for-line the same): the emitted SSE lines.  uuid and timestamp
are abstracted as `idv` and `created`; a pipeline failure is the
`.error` case and yields the error object followed by the `[DONE]`
sentinel; success yields the content chunks, one final chunk with empty
delta and `finish_reason = "stop"`, and the `[DONE]` sentinel. -/
def stream_rag_response (idv : String) (created : Int) (model : String)
    (pipe : Except String PipelineMode) : List SSELine :=
  match pipe with
  | .error e => [.errorObj e "internal_server_error" "rag_error", .doneSentinel]
  | .ok mode =>
    (contentFrags mode).map
      (fun c => .chunk ⟨idv, "chat.completion.chunk", created, model, some c, none⟩)
    ++ [.chunk ⟨idv, "chat.completion.chunk", created, model, none, some "stop"⟩,
        .doneSentinel]

/-- Whether an SSE line is the OpenAI-dialect terminal chunk
(`finish_reason = "stop"`). -/
def isStopLine : SSELine → Bool
  | .chunk c => c.finish_reason = some "stop"
  | _ => false

/-- Concatenation of the OpenAI-dialect delta contents in emission order. -/
def sseDeltaConcat (s : List SSELine) : String :=
  String.join (s.map (fun l =>
    match l with
    | .chunk c => c.delta.getD ""
    | _ => ""))

/-- `Message` (`api/models.py` lines 12-15). -/
structure Message where
  role : String
  content : String
deriving DecidableEq, Repr

/-- `ChatRequest` (`api/models.py` lines 17-23).  `temperature` is a
float in the source; it is never read by the gateway code, so it is
carried as an opaque `Float`. -/
structure ChatRequest where
  model : String
  messages : List Message
  stream : Bool
  max_tokens : Option Int
  temperature : Option Float

/-- `OllamaMessage` (`ollama_api.py` lines 34-37). -/
structure OllamaMessage where
  role : String
  content : String
  images : Option (List String)
deriving DecidableEq, Repr

/-- `OllamaChatRequest` (`ollama_api.py` lines 39-43); `stream` is
`Optional[bool] = False` and `options` an optional dict the chat
handler never reads. -/
structure OllamaChatRequest where
  model : String
  messages : List OllamaMessage
  stream : Option Bool
  options : Option Json

/-- Whether a request body contains any `user`-role message. -/
def hasUserMsg (msgs : List OllamaMessage) : Bool :=
  msgs.any (fun m => m.role == "user")

/-- Routing outcome of the Ollama `/api/chat` handler. -/
inductive OllamaOutcome where
  | httpError (code : Nat) (detail : String)
  | ragStream (question : String)
  | ragSync (question : String)
  | proxy
deriving DecidableEq, Repr

/-- `chat_ollama` (`ollama_api.py` lines 56-129), reduced to its routing
decision: extract the most recent `user`-role message (HTTP 400 when
none exists, before the model comparison), then compare `request.model`
with `chat_handler.rag_model_name` by exact string equality; equal goes
to the RAG pipeline (streaming or synchronous by the `stream` flag,
absent meaning `False`), different goes to `proxy_chat_to_ollama`. -/
def chat_ollama (ragName : String) (req : OllamaChatRequest) : OllamaOutcome :=
  match req.messages.reverse.find? (fun m => m.role == "user") with
  | none => .httpError 400 "No user message found"
  | some um =>
    if req.model = ragName then
      if req.stream.getD false then .ragStream um.content else .ragSync um.content
    else
      .proxy

/-- Outcome of the OpenAI-style `/api/chat/completions` handlers. -/
inductive CCOutcome where
  | ragStream (question : String)
  | ragSync (question : String)
  | proxyStream
  | proxySync
  | httpError (code : Nat) (detail : String)
deriving DecidableEq, Repr

/-- `chat_completions` (`api/routes.py` lines 120-176), reduced to its
routing decision: the question is `request.messages[-1].content`
regardless of role (an empty list raises `IndexError`, converted by the
surrounding `except` into HTTP 500); exact string match of
`request.model` against `chat_handler.rag_model_name` picks RAG versus
proxy, and the `stream` flag picks the streaming variant. -/
def routes_chat_completions (ragName : String) (req : ChatRequest) : CCOutcome :=
  match req.messages.getLast? with
  | none => .httpError 500 "list index out of range"
  | some last =>
    if req.model = ragName then
      if req.stream then .ragStream last.content else .ragSync last.content
    else
      if req.stream then .proxyStream else .proxySync

/-- `chat_completions` (`server.py` lines 452-494), reduced to its
routing decision: the question is `request.messages[-1].content`; there
is no model comparison at all — every request runs the RAG chain
(`stream_rag_response` when streaming, `rag_chain.invoke` otherwise). -/
def server_chat_completions (req : ChatRequest) : CCOutcome :=
  match req.messages.getLast? with
  | none => .httpError 500 "list index out of range"
  | some last =>
    if req.stream then .ragStream last.content else .ragSync last.content

/-- Whether an outcome invokes the augmented (RAG) pipeline. -/
def CCOutcome.invokesRag : CCOutcome → Bool
  | .ragStream _ => true
  | .ragSync _ => true
  | _ => false

/-- Whether an Ollama routing outcome invokes the augmented pipeline. -/
def OllamaOutcome.invokesRag : OllamaOutcome → Bool
  | .ragStream _ => true
  | .ragSync _ => true
  | _ => false

/-- Outcome of one HTTP request to the upstream service, as observed by
the calling Python code: a response with a status code, a parsed JSON
body and the raw text, or one of the `requests` exceptions. -/
inductive HttpAttempt where
  | response (statusCode : Nat) (body : Json) (text : String)
  | timeoutExc (msg : String)
  | connectionExc (msg : String)
  | otherExc (msg : String)

/-- `OllamaChatChunk` rendered to the JSON dict the source builds
(fields in source order; the usage counters, when present, follow
`done` at top level). -/
def OllamaChatChunk.toJson (c : OllamaChatChunk) : Json :=
  .obj ([("model", .str c.model), ("created_at", .str c.created_at),
        ("message", .obj [("role", .str c.role), ("content", .str c.content)]),
        ("done", .bool c.done)] ++
    (match c.usage with
     | none => []
     | some u =>
       [("total_duration", .num u.total_duration),
        ("load_duration", .num u.load_duration),
        ("prompt_eval_count", .num u.prompt_eval_count),
        ("prompt_eval_duration", .num u.prompt_eval_duration),
        ("eval_count", .num u.eval_count),
        ("eval_duration", .num u.eval_duration)]))

/-- `proxy_chat_to_ollama` (`ollama_api.py` lines 423-463): POST the
request to the upstream with `timeout=120`; on status 200 return the
parsed JSON body as is; on any other status return the chat error
envelope `"LLM server error: <status>"`; `Timeout`, `ConnectionError`
and any other exception are each converted to a chat error envelope. -/
def proxy_chat_to_ollama (ts model : String) : HttpAttempt → Json
  | .response s body _ =>
    if s = 200 then body
    else (create_chat_error_response ts model ("LLM server error: " ++ toString s)).toJson
  | .timeoutExc _ => (create_chat_error_response ts model "Request timeout").toJson
  | .connectionExc _ => (create_chat_error_response ts model "Connection error").toJson
  | .otherExc m => (create_chat_error_response ts model ("Proxy error: " ++ m)).toJson

/-- `ChatHandler.proxy_to_llm` (`chat_handler.py` lines 142-173),
response handling: on status 200 return the parsed body unchanged; any
other status raises `HTTPException(status_code, "LLM server error: " +
text)`; a `requests.RequestException` (which covers both timeout and
connection failure) raises `HTTPException(502, ...)`.  The raised
`HTTPException` is the structured FastAPI error, modelled as `.error`. -/
def proxy_to_llm : HttpAttempt → Except (Nat × String) Json
  | .response s body text =>
    if s = 200 then .ok body
    else .error (s, "LLM server error: " ++ text)
  | .timeoutExc m => .error (502, "Failed to connect to LLM server: " ++ m)
  | .connectionExc m => .error (502, "Failed to connect to LLM server: " ++ m)
  | .otherExc m => .error (502, "Failed to connect to LLM server: " ++ m)

/-- The upstream request body built by `ChatHandler.proxy_to_llm` and
`ChatHandler.proxy_stream_to_llm` (`chat_handler.py` lines 147-151 and
180-184): exactly the keys `model`, `messages` (each message reduced to
`role` and `content`) and `stream` (a literal `False` in the
non-streaming path, a literal `True` in the streaming path). -/
def proxy_body (req : ChatRequest) (streamFlag : Bool) : Json :=
  .obj [("model", .str req.model),
        ("messages", .arr (req.messages.map
          (fun msg => .obj [("role", .str msg.role), ("content", .str msg.content)]))),
        ("stream", .bool streamFlag)]

/-- Body sent by the non-streaming proxy (`"stream": False`). -/
def proxy_to_llm_body (req : ChatRequest) : Json :=
  proxy_body req false

/-- Body sent by the streaming proxy (`"stream": True`). -/
def proxy_stream_to_llm_body (req : ChatRequest) : Json :=
  proxy_body req true

/-- A claim-relevant call site of the gateway, with the timeout the
source passes there, if any (`ollama_api.py` lines 434-438 and 476-480,
`chat_handler.py` lines 33-35, 154-158 and 188-195, `routes.py` lines
301-310 and 335-339).  `run_in_executor` around `rag_chain.invoke` and
the `aiohttp` streaming posts carry no timeout argument. -/
inductive CallSite where
  | proxyChatToOllama
  | proxyGenerateToOllama
  | chatHandlerProxyToLlm
  | chatSimpleProxySync
  | processWithRag
  | proxyStreamToLlm
  | chatSimpleProxyStream
deriving DecidableEq, Repr

/-- The timeout (in seconds) hard-coded at each call site, `none` when
the call is issued without one. -/
def callTimeoutSeconds : CallSite → Option Nat
  | .proxyChatToOllama => some 120
  | .proxyGenerateToOllama => some 120
  | .chatHandlerProxyToLlm => some 120
  | .chatSimpleProxySync => some 120
  | .processWithRag => none
  | .proxyStreamToLlm => none
  | .chatSimpleProxyStream => none

/-- The names bound at module scope in `api/routes.py` (its import
block, lines 1-16, plus the module-level definitions).  Notably absent:
`requests`, `json` and `aiohttp` (`aiohttp` is imported locally inside
the streaming proxy closure only). -/
def routesModuleNames : List String :=
  ["uuid", "time", "Optional", "APIRouter", "HTTPException", "Header", "Depends",
   "status", "Response", "StreamingResponse",
   "ModelsResponse", "WebUIModelsResponse", "ChatRequest", "ChatResponse",
   "ChatResponseChoice", "ChatResponseMessage", "RetrievalTestRequest",
   "RetrievalTestResponse", "model_service", "get_current_user_optional",
   "router", "chat_handler", "set_chat_handler",
   "list_openai_models", "list_webui_models", "show_model", "get_version",
   "health_check", "chat_completions", "chat_simple", "test_retrieval", "root"]

/-- The message of the Python `NameError` raised when `n` fails to
resolve. -/
def nameErrorMsg (n : String) : String :=
  "name \x27" ++ n ++ "\x27 is not defined"

/-- The Ollama-shaped error envelope built by the outer `except` of
`chat_simple` (`routes.py` lines 370-378) and by its proxy error arms
(lines 345-365): assistant message whose content is
`"Error: " + str(e)` (or the literal error text of the arm),
`done = True`. -/
def simpleErrorEnvelope (model content : String) : Json :=
  .obj [("model", .str model), ("created_at", .str "2024-01-01T00:00:00Z"),
        ("message", .obj [("role", .str "assistant"), ("content", .str content)]),
        ("done", .bool true)]

/-- Non-streaming RAG response of `chat_simple` (`routes.py` lines
273-287): Ollama-standard envelope with fixed placeholder counters. -/
def chat_simple_rag_sync_response (model answer : String) : Json :=
  .obj [("model", .str model), ("created_at", .str "2024-01-01T00:00:00Z"),
        ("message", .obj [("role", .str "assistant"), ("content", .str answer)]),
        ("done", .bool true),
        ("total_duration", .num 1000000000), ("load_duration", .num 100000000),
        ("prompt_eval_count", .num 10), ("prompt_eval_duration", .num 200000000),
        ("eval_count", .num 20), ("eval_duration", .num 500000000)]

/-- Non-streaming RAG response of the OpenAI-style handlers
(`ChatResponse` of `api/models.py` lines 36-43, as built in
`routes.py` / `chat_handler.py` / `server.py`): `choices[0].message`
carries the answer, `finish_reason = "stop"`, zero-token usage stub. -/
def chat_completions_response (idv : String) (created : Int) (model answer : String) :
    Json :=
  .obj [("id", .str idv), ("object", .str "chat.completion"), ("created", .num created),
        ("model", .str model),
        ("choices", .arr [.obj
          [("index", .num 0),
           ("message", .obj [("role", .str "assistant"), ("content", .str answer)]),
           ("finish_reason", .str "stop")]]),
        ("usage", .obj [("prompt_tokens", .num 0), ("completion_tokens", .num 0),
                        ("total_tokens", .num 0)])]

/-- The canonical `ChatRequest` that `chat_simple` builds from a parsed
simplified request (`routes.py` lines 212-216): a single `user`-role
message holding the question. -/
def simple_to_chat_request (model question : String) (stream : Bool) : ChatRequest :=
  ⟨model, [⟨"user", question⟩], stream, none, none⟩

/-- Body of a simplified-protocol request: a Python dict that may carry
`message`, `messages`, `model` and `stream` keys (`routes.py` lines
191-205). -/
structure SimpleChatBody where
  message : Option String
  messages : Option (List Message)
  model : Option String
  stream : Option Bool

/-- Outcome of the `chat_simple` handler. -/
inductive SimpleOutcome where
  | ragStream (question model : String)
  | ragSyncEnvelope (j : Json)
  | proxyStream (question model : String)
  | upstreamAttempt (question model : String)
  | errorEnvelope (j : Json)

/-- Whether the outcome issues (or will issue, while streaming) an HTTP
request to the upstream service. -/
def SimpleOutcome.issuedUpstreamRequest : SimpleOutcome → Bool
  | .upstreamAttempt _ _ => true
  | .proxyStream _ _ => true
  | _ => false

/-- Dispatch of `chat_simple` after parsing (`routes.py` lines
219-365): exact model match selects RAG; the non-streaming proxy branch
must evaluate the module-level name `requests` (line 335), which is
unbound in `routes.py`, so a `NameError` is raised there; the inner
`except requests.exceptions.RequestException` clause cannot be
evaluated for the same reason, and the outer handler (lines 367-378)
renders the Ollama error envelope.  `envModel` is
`request.get("model", "unknown")` as used by the outer handler, `pres`
the abstracted pipeline call. -/
def chat_simple_dispatch (ragName envModel question model : String) (stream : Bool)
    (pres : Except String String) : SimpleOutcome :=
  if model = ragName then
    if stream then
      .ragStream question model
    else
      match pres with
      | .ok answer => .ragSyncEnvelope (chat_simple_rag_sync_response model answer)
      | .error e =>
        .errorEnvelope (simpleErrorEnvelope envModel ("Error: 500: RAG 처리 실패: " ++ e))
  else
    if stream then
      .proxyStream question model
    else
      if routesModuleNames.contains "requests" then
        .upstreamAttempt question model
      else
        .errorEnvelope (simpleErrorEnvelope envModel
          ("Error: " ++ nameErrorMsg "requests"))

/-- `chat_simple` (`routes.py` lines 178-378): parse the loose dict
(`message` key preferred, else last element of `messages` regardless of
role, else an `HTTPException(400)` that the outer `except Exception`
itself swallows into the error envelope), defaulting `model` to the RAG
model name and `stream` to `False`, then dispatch. -/
def chat_simple (ragName : String) (req : SimpleChatBody)
    (pres : Except String String) : SimpleOutcome :=
  let envModel := req.model.getD "unknown"
  match req.message with
  | some q =>
    chat_simple_dispatch ragName envModel q (req.model.getD ragName)
      (req.stream.getD false) pres
  | none =>
    match req.messages with
    | some msgs =>
      match msgs.getLast? with
      | some m =>
        chat_simple_dispatch ragName envModel m.content (req.model.getD ragName)
          (req.stream.getD false) pres
      | none => .errorEnvelope (simpleErrorEnvelope envModel
          "Error: list index out of range")
    | none =>
      .errorEnvelope (simpleErrorEnvelope envModel
        "Error: 400: Invalid request format. Expected \x27message\x27 or \x27messages\x27 field.")

/-- First element of a JSON array. -/
def Json.first? : Json → Option Json
  | .arr (x :: _) => some x
  | _ => none

/-- The answer text of an Ollama-shaped response (`message.content`). -/
def ollamaContent (j : Json) : Option Json :=
  (j.lookup "message").bind (fun msg => msg.lookup "content")

/-- The answer text of an OpenAI-shaped response
(`choices[0].message.content`). -/
def openaiContent (j : Json) : Option Json :=
  ((((j.lookup "choices").bind Json.first?).bind
    (fun c => c.lookup "message")).bind (fun msg => msg.lookup "content"))

theorem str_append_assoc (a b c : String) : a ++ b ++ c = a ++ (b ++ c) := by
  apply String.ext
  simp [String.data_append]

theorem str_append_empty (a : String) : a ++ "" = a := by
  apply String.ext
  simp [String.data_append]

theorem join_cons (s : String) (l : List String) :
    String.join (s :: l) = s ++ String.join l := by
  apply String.ext
  simp [String.data_join, String.data_append]

theorem sepJoin_cons_of_ne_nil (w : String) (l : List String) (h : l ≠ []) :
    sepJoin (w :: l) = w ++ " " ++ sepJoin l := by
  cases l with
  | nil => exact absurd rfl h
  | cons x xs => rfl

theorem sepJoin_append_of_ne_nil (l₁ l₂ : List String) (h₁ : l₁ ≠ []) (h₂ : l₂ ≠ []) :
    sepJoin (l₁ ++ l₂) = sepJoin l₁ ++ " " ++ sepJoin l₂ := by
  induction l₁ with
  | nil => exact absurd rfl h₁
  | cons w ws ih =>
    cases ws with
    | nil =>
      simp only [List.singleton_append, sepJoin]
      rw [sepJoin_cons_of_ne_nil w l₂ h₂]
    | cons x xs =>
      have hne : x :: xs ≠ [] := by simp
      rw [List.cons_append, sepJoin_cons_of_ne_nil w ((x :: xs) ++ l₂) (by simp),
        ih hne, sepJoin_cons_of_ne_nil w (x :: xs) hne]
      apply String.ext
      simp [String.data_append]

theorem join_chunkFuel (k : Nat) :
    ∀ (fuel : Nat) (ws : List String), ws.length ≤ fuel →
      String.join (chunkFuel fuel k ws) = sepJoin ws := by
  intro fuel
  induction fuel with
  | zero =>
    intro ws h
    have : ws = [] := List.eq_nil_of_length_eq_zero (Nat.le_zero.mp h)
    subst this
    rfl
  | succ fuel ih =>
    intro ws h
    cases ws with
    | nil => rfl
    | cons w ws =>
      have hlen : ws.length ≤ fuel := Nat.succ_le_succ_iff.mp h
      have hdrop : (ws.drop k).length ≤ fuel :=
        le_trans (by rw [List.length_drop]; exact Nat.sub_le _ _) hlen
      simp only [chunkFuel]
      rw [join_cons, ih (ws.drop k) hdrop]
      by_cases hrest : (ws.drop k).isEmpty
      · have hdropnil : ws.drop k = [] := by
          cases hd : ws.drop k with
          | nil => rfl
          | cons a l => rw [hd] at hrest; simp [List.isEmpty] at hrest
        have hlen2 : (w :: ws).length ≤ k + 1 := by
          have := List.drop_eq_nil_iff.mp hdropnil
          simpa [List.length_cons] using Nat.succ_le_succ this
        have htake : (w :: ws).take (k + 1) = w :: ws :=
          List.take_of_length_le hlen2
        rw [hrest, hdropnil, htake]
        simp [sepJoin, str_append_empty]
      · have hdropne : ws.drop k ≠ [] := by
          intro hcon
          rw [hcon] at hrest
          simp [List.isEmpty] at hrest
        have htakene : (w :: ws).take (k + 1) ≠ [] := by
          rw [List.take_succ_cons]
          simp
        rw [if_neg hrest]
        have hsplit : (w :: ws).take (k + 1) ++ ws.drop k = w :: ws := by
          have : (w :: ws).drop (k + 1) = ws.drop k := List.drop_succ_cons
          rw [← this, List.take_append_drop]
        conv_rhs => rw [← hsplit]
        rw [sepJoin_append_of_ne_nil _ _ htakene hdropne]

theorem join_append (l₁ l₂ : List String) :
    String.join (l₁ ++ l₂) = String.join l₁ ++ String.join l₂ := by
  apply String.ext
  simp [String.data_join, String.data_append]

theorem join_chunkGroups (cs : Nat) (ws : List String) :
    String.join (chunkGroups cs ws) = sepJoin ws :=
  join_chunkFuel (cs - 1) ws.length ws (le_refl _)

theorem find?_user_none_iff (msgs : List OllamaMessage) :
    (msgs.reverse.find? (fun m => m.role == "user") = none)
      ↔ hasUserMsg msgs = false := by
  rw [List.find?_eq_none, hasUserMsg]
  constructor
  · intro h
    rw [List.any_eq_false]
    intro m hm
    exact h m (List.mem_reverse.mpr hm)
  · intro h m hm
    exact (List.any_eq_false.mp h) m (List.mem_reverse.mp hm)

theorem hasUserMsg_of_find?_some (msgs : List OllamaMessage) (um : OllamaMessage)
    (h : msgs.reverse.find? (fun m => m.role == "user") = some um) :
    hasUserMsg msgs = true := by
  have hp := List.find?_some h
  rw [hasUserMsg, List.any_eq_true]
  exact ⟨um, List.mem_reverse.mp (List.mem_of_find?_eq_some h), by simpa using hp⟩

theorem join_nil : String.join [] = "" := rfl

theorem str_empty_append (a : String) : "" ++ a = a := by
  apply String.ext
  simp [String.data_append]

/-- Claim C1, counterexample: for the pipeline answer `"a\nb"` the
streamed delta contents concatenate to `"a b"`, not to the
`stream=false` answer `"a\nb"`; `str.split()` discards the original
whitespace, so an answer containing a newline (or consecutive spaces)
is not reproduced exactly. -/
theorem c1_counterexample :
    deltaConcat (rag_chat_stream "t" "q" "m" (Except.ok "a\nb"))
      ≠ (create_chat_response "t" "m" "a\nb").content := by
  decide

/-- Claim C1, amended: the artificial segmentation emits the
whitespace-split words in order in fixed-size groups with a trailing
space on every non-final group, and the concatenated delta contents
equal the single-space rejoining of the split answer — which equals the
`stream=false` answer exactly when the answer is already single-space
normalised (no leading/trailing whitespace, newlines or consecutive
spaces). -/
theorem c1_lossless_resegmentation_amended (ts q m idv : String) (created : Int)
    (answer : String) :
    deltaConcat (rag_chat_stream ts q m (Except.ok answer)) = sepJoin (pySplit answer)
    ∧ sseDeltaConcat (stream_rag_response idv created m
        (Except.ok (PipelineMode.invokeOnly answer))) = sepJoin (pySplit answer)
    ∧ (answer = sepJoin (pySplit answer) →
        deltaConcat (rag_chat_stream ts q m (Except.ok answer))
          = (create_chat_response ts m answer).content) := by
  have h1 : deltaConcat (rag_chat_stream ts q m (Except.ok answer))
      = sepJoin (pySplit answer) := by
    simp [deltaConcat, rag_chat_stream, List.map_map, join_append, Function.comp_def,
      List.map_id', join_cons, join_nil, join_chunkGroups, str_append_empty]
  have h2 : sseDeltaConcat (stream_rag_response idv created m
      (Except.ok (PipelineMode.invokeOnly answer))) = sepJoin (pySplit answer) := by
    simp [sseDeltaConcat, stream_rag_response, contentFrags, List.map_map, join_append,
      Function.comp_def, List.map_id', join_cons, join_nil, join_chunkGroups,
      str_append_empty]
  exact ⟨h1, h2, fun hnorm => h1.trans hnorm.symm⟩

/-- Claim C1, witness: a single-space normalised answer is streamed
losslessly. -/
theorem c1_witness :
    ("hello world" = sepJoin (pySplit "hello world"))
    ∧ deltaConcat (rag_chat_stream "t" "q" "m" (Except.ok "hello world"))
        = (create_chat_response "t" "m" "hello world").content :=
  ⟨by decide,
   (c1_lossless_resegmentation_amended "t" "q" "m" "i" 0 "hello world").2.2 (by decide)⟩

theorem getLast?_some_of_ne_nil (l : List Message) (hl : l ≠ []) :
    ∃ x, l.getLast? = some x := by
  cases hx : l.getLast? with
  | some x => exact ⟨x, rfl⟩
  | none => exact absurd (List.getLast?_eq_none_iff.mp hx) hl

/-- Claim C2, counterexample: the `/api/chat/completions` handler of
`server.py` (one of the cited routing sites) performs no model
comparison at all — the unknown model name `"no-such-model"`, different
from the configured RAG name, still invokes the augmented pipeline
instead of being forwarded to the proxy path. -/
theorem c2_counterexample :
    ("no-such-model" ≠ "rag-cheeseade:latest")
    ∧ (server_chat_completions
        ⟨"no-such-model", [⟨"user", "hi"⟩], false, none, none⟩).invokesRag = true :=
  ⟨by decide, rfl⟩

/-- Claim C2, amended: in the Ollama `/api/chat` handler and in
`routes.py` `chat_completions`, routing is an exact string comparison
of the request model against the RAG model name (equal invokes the
pipeline, different is proxied and never invokes the pipeline) — but
the `server.py` `chat_completions` endpoint invokes the augmented
pipeline for every model name, with no proxy path. -/
theorem c2_routing_amended (ragName : String) (req : OllamaChatRequest)
    (creq : ChatRequest) :
    ((chat_ollama ragName req = .proxy)
      ↔ (hasUserMsg req.messages = true ∧ req.model ≠ ragName))
    ∧ ((chat_ollama ragName req).invokesRag = true → req.model = ragName)
    ∧ (creq.messages ≠ [] →
        ((routes_chat_completions ragName creq).invokesRag = false
          ↔ creq.model ≠ ragName))
    ∧ (creq.messages ≠ [] → (server_chat_completions creq).invokesRag = true) := by
  refine ⟨?_, ?_, ?_, ?_⟩
  · cases hf : req.messages.reverse.find? (fun mm => mm.role == "user") with
    | none =>
      have hu := (find?_user_none_iff req.messages).mp hf
      simp [chat_ollama, hf, hu]
    | some um =>
      have hu := hasUserMsg_of_find?_some req.messages um hf
      by_cases hm : req.model = ragName
      · cases hs : req.stream.getD false <;> simp [chat_ollama, hf, hm, hs]
      · simp [chat_ollama, hf, hm, hu]
  · intro hr
    by_contra hm
    cases hf : req.messages.reverse.find? (fun mm => mm.role == "user") with
    | none => simp [chat_ollama, hf, OllamaOutcome.invokesRag] at hr
    | some um => simp [chat_ollama, hf, hm, OllamaOutcome.invokesRag] at hr
  · intro hne
    obtain ⟨x, hx⟩ := getLast?_some_of_ne_nil creq.messages hne
    by_cases hm : creq.model = ragName
    · cases hs : creq.stream <;>
        simp [routes_chat_completions, hx, hm, hs, CCOutcome.invokesRag]
    · cases hs : creq.stream <;>
        simp [routes_chat_completions, hx, hm, hs, CCOutcome.invokesRag]
  · intro hne
    obtain ⟨x, hx⟩ := getLast?_some_of_ne_nil creq.messages hne
    cases hs : creq.stream <;>
      simp [server_chat_completions, hx, hs, CCOutcome.invokesRag]

/-- Claim C2, witness: with a user message present, a request for the
RAG model is not proxied and a request for a different model is. -/
theorem c2_witness :
    (chat_ollama "rag-cheeseade:latest"
      ⟨"no-such-model", [⟨"user", "hi", none⟩], some false, none⟩ = .proxy)
    ∧ ((server_chat_completions
        ⟨"no-such-model", [⟨"user", "hi"⟩], true, none, none⟩).invokesRag = true) := by
  constructor
  · exact (c2_routing_amended "rag-cheeseade:latest"
      ⟨"no-such-model", [⟨"user", "hi", none⟩], some false, none⟩
      ⟨"no-such-model", [⟨"user", "hi"⟩], true, none, none⟩).1.mpr ⟨by decide, by decide⟩
  · exact (c2_routing_amended "rag-cheeseade:latest"
      ⟨"no-such-model", [⟨"user", "hi", none⟩], some false, none⟩
      ⟨"no-such-model", [⟨"user", "hi"⟩], true, none, none⟩).2.2.2 (by decide)

theorem filter_done_map_chat (m ts : String) (l : List String) :
    (l.map (fun c => (⟨m, ts, "assistant", c, false, none⟩ : OllamaChatChunk))).filter
      (fun c => c.done) = [] := by
  induction l with
  | nil => rfl
  | cons a l ih => simp [List.filter, ih]

theorem filter_done_map_gen (m ts : String) (l : List String) :
    (l.map (fun c => (⟨m, ts, c, false, none, none⟩ : OllamaGenChunk))).filter
      (fun c => c.done) = [] := by
  induction l with
  | nil => rfl
  | cons a l ih => simp [List.filter, ih]

theorem all_not_done_map_chat (m ts : String) (l : List String) :
    (l.map (fun c => (⟨m, ts, "assistant", c, false, none⟩ : OllamaChatChunk))).all
      (fun c => !c.done) = true := by
  induction l with
  | nil => rfl
  | cons a l ih => simp [List.all_cons, ih]

theorem filter_stop_map_content (idv : String) (created : Int) (m : String)
    (l : List String) :
    (l.map (fun c => SSELine.chunk
      ⟨idv, "chat.completion.chunk", created, m, some c, none⟩)).filter isStopLine
      = [] := by
  induction l with
  | nil => rfl
  | cons a l ih => simp [List.filter, isStopLine, ih]

theorem dropWhile_not_stop_map_content (idv : String) (created : Int) (m : String)
    (frags : List String) (rest : List SSELine) :
    ((frags.map (fun c => SSELine.chunk
        ⟨idv, "chat.completion.chunk", created, m, some c, none⟩)) ++ rest).dropWhile
      (fun l => !isStopLine l)
      = rest.dropWhile (fun l => !isStopLine l) := by
  induction frags with
  | nil => rfl
  | cons f fs ih => simp [List.dropWhile_cons, isStopLine, ih]

/-- Claim C3, counterexample: on the mid-stream error path of the
OpenAI dialect (`stream_rag_response` `except` branch) the emitted
sequence contains no `finish_reason = "stop"` chunk at all — the error
object plus the `[DONE]` sentinel terminate the stream — so the chunk
sequence does not contain exactly one terminal chunk. -/
theorem c3_counterexample :
    ((stream_rag_response "i" 0 "m" (Except.error "boom")).filter isStopLine).length
      ≠ 1 := by
  decide

/-- Claim C3, amended: in the Ollama dialect every stream (success or
error path) contains exactly one `done = true` object, located at the
very end; in the OpenAI dialect the success path contains exactly one
`finish_reason = "stop"` chunk, followed only by the `[DONE]` sentinel,
while the error path contains none — it ends with the error object and
the `[DONE]` sentinel, the error object itself signalling termination. -/
theorem c3_terminal_chunk_amended (ts q m idv e : String) (created : Int)
    (pres : Except String String) (mode : PipelineMode) :
    (((rag_chat_stream ts q m pres).filter (fun c => c.done)).length = 1)
    ∧ ((rag_chat_stream ts q m pres).dropLast.all (fun c => !c.done) = true)
    ∧ (((rag_generate_stream ts q m pres).filter (fun c => c.done)).length = 1)
    ∧ (((stream_rag_response idv created m (.ok mode)).filter isStopLine).length = 1)
    ∧ ((stream_rag_response idv created m (.ok mode)).dropWhile (fun l => !isStopLine l)
        = [.chunk ⟨idv, "chat.completion.chunk", created, m, none, some "stop"⟩,
           .doneSentinel])
    ∧ (((stream_rag_response idv created m (.error e)).filter isStopLine).length = 0)
    ∧ (stream_rag_response idv created m (.error e)
        = [.errorObj e "internal_server_error" "rag_error", .doneSentinel]) := by
  refine ⟨?_, ?_, ?_, ?_, ?_, ?_, ?_⟩
  · cases pres with
    | error e' => simp [rag_chat_stream, create_chat_error_response, List.filter]
    | ok a =>
      simp [rag_chat_stream, List.filter_append, filter_done_map_chat, List.filter]
  · cases pres with
    | error e' => rfl
    | ok a =>
      rw [rag_chat_stream, List.dropLast_concat]
      exact all_not_done_map_chat m ts (chunkGroups 2 (pySplit a))
  · cases pres with
    | error e' => simp [rag_generate_stream, create_generate_error_response, List.filter]
    | ok a =>
      simp [rag_generate_stream, List.filter_append, filter_done_map_gen, List.filter]
  · simp [stream_rag_response, List.filter_append, filter_stop_map_content,
      List.filter, isStopLine]
  · rw [stream_rag_response, dropWhile_not_stop_map_content]
    simp [List.dropWhile_cons, isStopLine]
  · rfl
  · rfl

/-- Claim C4, counterexample: the non-streaming RAG response of the
simplified endpoint is the Ollama envelope (`model`, `created_at`,
`message`, `done`, counters), while the OpenAI-style endpoint returns
the `ChatResponse` shape (`id`, `object`, `created`, `model`,
`choices`, `usage`) — the two response shapes are not byte-identical
for the same question and model. -/
theorem c4_counterexample :
    (chat_simple_rag_sync_response "rag-cheeseade:latest" "X").keys
      ≠ (chat_completions_response "chatcmpl-0" 0 "rag-cheeseade:latest" "X").keys := by
  decide

/-- Claim C4, amended: `chat_simple` does rewrite a simplified request
`{message: X}` into the canonical `messages = [{role: "user",
content: X}]` shape, and both endpoints return the same pipeline answer
as their content, but `chat_simple` serialises the Ollama envelope
rather than reusing the OpenAI-style serialisation, so the two response
shapes differ (distinct top-level key sets). -/
theorem c4_simple_rewrite_amended (m q idv : String) (s : Bool) (created : Int)
    (ans : String) :
    ((simple_to_chat_request m q s).messages = [⟨"user", q⟩])
    ∧ (chat_simple m ⟨some q, none, none, some false⟩ (Except.ok ans)
        = .ragSyncEnvelope (chat_simple_rag_sync_response m ans))
    ∧ (ollamaContent (chat_simple_rag_sync_response m ans) = some (.str ans))
    ∧ (openaiContent (chat_completions_response idv created m ans) = some (.str ans))
    ∧ ((chat_simple_rag_sync_response m ans).keys
        ≠ (chat_completions_response idv created m ans).keys) := by
  refine ⟨rfl, ?_, rfl, rfl, ?_⟩
  · simp [chat_simple, chat_simple_dispatch]
  · intro h
    simp [chat_simple_rag_sync_response, chat_completions_response, Json.keys] at h

/-- Claim C5, counterexample: the OpenAI-style `chat_completions`
handler of `routes.py` does not reject a request whose messages carry no
`user` role — it takes the last message regardless of role and proceeds
straight to generation, instead of returning an HTTP 400 error. -/
theorem c5_counterexample :
    (routes_chat_completions "rag-cheeseade:latest"
        ⟨"rag-cheeseade:latest", [⟨"assistant", "hi"⟩], false, none, none⟩
      = .ragSync "hi")
    ∧ (([⟨"assistant", "hi"⟩] : List Message).any (fun mm => mm.role == "user")
        = false) :=
  ⟨rfl, by decide⟩

/-- Claim C5, amended: only the Ollama-dialect `/api/chat` handler
rejects a request with no `user`-role message, with HTTP 400 before the
model comparison and before any generation or proxy step; the
OpenAI-style completion handlers instead use the last message content
regardless of its role. -/
theorem c5_no_user_message_amended (ragName : String) (req : OllamaChatRequest)
    (h : hasUserMsg req.messages = false) :
    chat_ollama ragName req = .httpError 400 "No user message found" := by
  have hf : req.messages.reverse.find? (fun mm => mm.role == "user") = none := by
    cases hfind : req.messages.reverse.find? (fun mm => mm.role == "user") with
    | none => rfl
    | some um =>
      rw [hasUserMsg_of_find?_some req.messages um hfind] at h
      exact absurd h (by decide)
  simp [chat_ollama, hf]

/-- Claim C5, witness: a concrete assistant-only request is rejected
with 400 by the Ollama chat handler. -/
theorem c5_witness :
    chat_ollama "rag-cheeseade:latest"
      ⟨"rag-cheeseade:latest", [⟨"assistant", "hi", none⟩], some false, none⟩
      = .httpError 400 "No user message found" :=
  c5_no_user_message_amended "rag-cheeseade:latest"
    ⟨"rag-cheeseade:latest", [⟨"assistant", "hi", none⟩], some false, none⟩
    (by decide)

/-- Claim C6: the non-streaming proxies pass an HTTP 200 upstream JSON
body through unchanged, and convert every other status, timeout,
connection failure or unexpected exception into exactly one structured
error value — the Ollama-shaped error envelope in `ollama_api.py`, the
FastAPI `HTTPException` (status + detail) in `chat_handler.py` — never
an unhandled exception. -/
theorem c6_proxy_passthrough (ts m txt a : String) (s : Nat) (body : Json) :
    (proxy_chat_to_ollama ts m (.response 200 body txt) = body)
    ∧ (s ≠ 200 → ∃ e, proxy_chat_to_ollama ts m (.response s body txt)
        = (create_chat_error_response ts m e).toJson)
    ∧ (∃ e, proxy_chat_to_ollama ts m (.timeoutExc a)
        = (create_chat_error_response ts m e).toJson)
    ∧ (∃ e, proxy_chat_to_ollama ts m (.connectionExc a)
        = (create_chat_error_response ts m e).toJson)
    ∧ (∃ e, proxy_chat_to_ollama ts m (.otherExc a)
        = (create_chat_error_response ts m e).toJson)
    ∧ (proxy_to_llm (.response 200 body txt) = .ok body)
    ∧ (s ≠ 200 → proxy_to_llm (.response s body txt)
        = .error (s, "LLM server error: " ++ txt))
    ∧ (proxy_to_llm (.timeoutExc a)
        = .error (502, "Failed to connect to LLM server: " ++ a))
    ∧ (proxy_to_llm (.connectionExc a)
        = .error (502, "Failed to connect to LLM server: " ++ a)) := by
  refine ⟨?_, ?_, ?_, ?_, ?_, ?_, ?_, ?_, ?_⟩
  · simp [proxy_chat_to_ollama]
  · intro hs
    exact ⟨"LLM server error: " ++ toString s, by simp [proxy_chat_to_ollama, hs]⟩
  · exact ⟨"Request timeout", rfl⟩
  · exact ⟨"Connection error", rfl⟩
  · exact ⟨"Proxy error: " ++ a, rfl⟩
  · simp [proxy_to_llm]
  · intro hs
    simp [proxy_to_llm, hs]
  · rfl
  · rfl

/-- Claim C6, witness: a 200 passthrough and a 500 error conversion at
concrete inputs. -/
theorem c6_witness :
    (proxy_chat_to_ollama "t" "m" (.response 200 (Json.str "ok") "raw") = Json.str "ok")
    ∧ (proxy_to_llm (.response 500 (Json.str "x") "err")
        = .error (500, "LLM server error: " ++ "err")) :=
  ⟨(c6_proxy_passthrough "t" "m" "raw" "a" 500 (Json.str "ok")).1,
   (c6_proxy_passthrough "t" "m" "err" "a" 500 (Json.str "x")).2.2.2.2.2.2.1
     (by decide)⟩

/-- Claim C7, counterexample: not every execution path is bounded by a
timeout — the pipeline invocation (`rag_chain.invoke` offloaded via
`run_in_executor`) is issued with no timeout at all, as are the
streaming proxy calls, so no single end-to-end timeout covers both
pipeline invocation and proxy calls. -/
theorem c7_counterexample :
    ¬ ∀ site : CallSite, (callTimeoutSeconds site).isSome = true := by
  intro h
  have hp := h CallSite.processWithRag
  simp [callTimeoutSeconds] at hp

/-- Claim C7, amended: only the non-streaming proxy calls carry a
timeout, hard-coded to 120 seconds at each call site (not a single
configurable value); the pipeline invocation and the streaming proxy
calls carry none; where the timeout applies, its firing is converted to
the canonical structured error (Ollama envelope, or HTTPException 502),
not an unhandled exception. -/
theorem c7_timeout_amended (ts m a : String) :
    (callTimeoutSeconds .proxyChatToOllama = some 120)
    ∧ (callTimeoutSeconds .proxyGenerateToOllama = some 120)
    ∧ (callTimeoutSeconds .chatHandlerProxyToLlm = some 120)
    ∧ (callTimeoutSeconds .chatSimpleProxySync = some 120)
    ∧ (callTimeoutSeconds .processWithRag = none)
    ∧ (callTimeoutSeconds .proxyStreamToLlm = none)
    ∧ (callTimeoutSeconds .chatSimpleProxyStream = none)
    ∧ (proxy_chat_to_ollama ts m (.timeoutExc a)
        = (create_chat_error_response ts m "Request timeout").toJson)
    ∧ (proxy_to_llm (.timeoutExc a)
        = .error (502, "Failed to connect to LLM server: " ++ a)) :=
  ⟨rfl, rfl, rfl, rfl, rfl, rfl, rfl, rfl, rfl⟩

/-- Claim C8, counterexample: the final object of a concrete Ollama
chat stream carries the synthetic usage counters, which are not zeroed
(`total_duration` is the fixed placeholder, `eval_count` the answer
word count). -/
theorem c8_counterexample :
    (((rag_chat_stream "t" "q" "m" (Except.ok "hi")).getLast?).bind (fun c => c.usage)
      = some (ragStreamUsage "q" "hi"))
    ∧ ragStreamUsage "q" "hi" ≠ zeroUsage := by
  constructor
  · decide
  · decide

/-- Claim C8, amended: the Ollama streams are newline-delimited JSON
objects in which every non-final object has `done = false` (and no
usage counters), the final object has `done = true` and carries the
fixed synthetic placeholder counters — word counts and hard-coded
durations, not zeroed — and nothing follows the final object (no
closing sentinel). -/
theorem c8_ndjson_amended (ts q m answer : String) :
    ((rag_chat_stream ts q m (Except.ok answer)).dropLast.all
        (fun c => !c.done && c.usage.isNone) = true)
    ∧ ((rag_chat_stream ts q m (Except.ok answer)).getLast?
        = some ⟨m, ts, "assistant", "", true, some (ragStreamUsage q answer)⟩)
    ∧ ((ragStreamUsage q answer).total_duration = 1000000000)
    ∧ (ragStreamUsage q answer ≠ zeroUsage)
    ∧ ((rag_generate_stream ts q m (Except.ok answer)).dropLast.all
        (fun c => !c.done && c.usage.isNone) = true)
    ∧ ((rag_generate_stream ts q m (Except.ok answer)).getLast?
        = some ⟨m, ts, "", true, some [], some (ragStreamUsage q answer)⟩) := by
  refine ⟨?_, ?_, rfl, ?_, ?_, ?_⟩
  · rw [rag_chat_stream, List.dropLast_concat]
    induction chunkGroups 2 (pySplit answer) with
    | nil => rfl
    | cons a l ih => simp [List.all_cons, ih]
  · rw [rag_chat_stream, List.getLast?_concat]
  · intro h
    simp [ragStreamUsage, zeroUsage, OllamaUsage.mk.injEq] at h
  · rw [rag_generate_stream, List.dropLast_concat]
    induction chunkGroups 2 (pySplit answer) with
    | nil => rfl
    | cons a l ih => simp [List.all_cons, ih]
  · rw [rag_generate_stream, List.getLast?_concat]

/-- Claim C9: for a simplified-protocol request with `stream = false`
whose model differs from the RAG model name, `chat_simple` returns the
Ollama error envelope whose content begins with `"Error: "` (carrying
the `NameError` text for the unresolved name `requests`) and never
issues the upstream HTTP request; the names `requests` and `json` are
indeed unbound in the `routes.py` module namespace. -/
theorem c9_unresolved_requests (ragName q m : String) (pres : Except String String)
    (h : m ≠ ragName) :
    (chat_simple ragName ⟨some q, none, some m, some false⟩ pres
      = .errorEnvelope (simpleErrorEnvelope m ("Error: " ++ nameErrorMsg "requests")))
    ∧ ((chat_simple ragName ⟨some q, none, some m, some false⟩ pres).issuedUpstreamRequest
        = false)
    ∧ (routesModuleNames.contains "requests" = false)
    ∧ (routesModuleNames.contains "json" = false) := by
  have h1 : chat_simple ragName ⟨some q, none, some m, some false⟩ pres
      = .errorEnvelope (simpleErrorEnvelope m ("Error: " ++ nameErrorMsg "requests")) := by
    simp [chat_simple, chat_simple_dispatch, h]
    decide
  refine ⟨h1, ?_, by decide, by decide⟩
  rw [h1]
  rfl

/-- Claim C9, witness: the unknown model `"no-such-model"` with
`stream = false` yields the NameError envelope. -/
theorem c9_witness :
    chat_simple "rag-cheeseade:latest"
      ⟨some "hi", none, some "no-such-model", some false⟩ (Except.ok "x")
      = .errorEnvelope (simpleErrorEnvelope "no-such-model"
          ("Error: " ++ nameErrorMsg "requests")) :=
  (c9_unresolved_requests "rag-cheeseade:latest" "hi" "no-such-model"
    (Except.ok "x") (by decide)).1

/-- Claim C10: the upstream body built by `proxy_to_llm` and
`proxy_stream_to_llm` has exactly the keys `model`, `messages` and
`stream`; every message is reduced to its `role` and `content`; the
inbound `max_tokens` and `temperature` options never influence the
body; and the non-streaming path always sends `stream = false` (the
streaming path always `true`) regardless of the inbound flag. -/
theorem c10_proxy_frame (req : ChatRequest) (mt : Option Int) (t : Option Float) :
    ((proxy_to_llm_body req).keys = ["model", "messages", "stream"])
    ∧ ((proxy_stream_to_llm_body req).keys = ["model", "messages", "stream"])
    ∧ (proxy_to_llm_body {req with max_tokens := mt, temperature := t}
        = proxy_to_llm_body req)
    ∧ (proxy_stream_to_llm_body {req with max_tokens := mt, temperature := t}
        = proxy_stream_to_llm_body req)
    ∧ ((proxy_to_llm_body req).lookup "stream" = some (.bool false))
    ∧ ((proxy_stream_to_llm_body req).lookup "stream" = some (.bool true))
    ∧ ((proxy_to_llm_body req).lookup "messages"
        = some (.arr (req.messages.map
            (fun msg => .obj [("role", .str msg.role), ("content", .str msg.content)])))) :=
  ⟨rfl, rfl, rfl, rfl, rfl, rfl, rfl⟩
